import Mathlib

set_option linter.unusedVariables false

/-!
Shallow embedding of `functions/data-extractor/__init__.py` from the
`azure-data-pipeline` repository, together with proofs about the spec's
claims.

The program is a straight-line diagnostic: read configuration from
environment variables, probe an Azure blob store, probe a PostgreSQL
database, and report.  External effects (SDK calls, the wall clock,
`uuid.uuid4()`) are modelled by passing their outcomes in explicitly:

* the process environment is an association list of variable bindings;
* each fallible external call is given an `Option String` outcome
  (`none` = the call succeeds, `some e` = the call raises an exception
  carrying message `e`); Python exceptions are modelled as
  `Except String` results, and a bare `raise` re-raise preserves the
  error value;
* `uuid.uuid4()` results are opaque strings supplied by the caller;
* `datetime.utcnow()` reads of the wall clock are abstract ticks
  (`Nat`); the program reads the clock more than once, and successive
  reads of a real clock may return different instants, so each read is
  a separate field of the effect record;
* side effects that matter to the spec (blob uploads, SQL statements,
  commit/rollback/close, log lines) are collected in explicit traces.
-/

namespace DataExtractor

/-- A process environment: variable-name/value bindings, first match wins
(the model of `os.environ`). -/
def Env : Type := List (String × String)

/-- `os.getenv(k)`: `some v` when `k` is bound to `v`, `none` when unset. -/
def lookupEnv (env : Env) (k : String) : Option String :=
  (List.find? (fun p => p.1 == k) env).map Prod.snd

/-- Python truthiness test `not value` on an optional string: `None` and
the empty string are falsy. -/
def falsy : Option String → Bool
  | none => true
  | some s => s == ""

/-- The configuration record returned by `get_config_from_env` (the
Python dict with six keys). -/
structure Config where
  storage_connection_string : String
  postgres_host : String
  postgres_port : String
  postgres_db : String
  postgres_user : String
  postgres_password : String
deriving Repr, DecidableEq

/-- Python `', '.join(xs)`. -/
def joinSep : List String → String
  | [] => ""
  | [x] => x
  | x :: y :: xs => x ++ ", " ++ joinSep (y :: xs)

/-- The insertion-ordered dict `postgres_required_vars` of
`get_config_from_env`: names paired with the looked-up values. -/
def postgres_required_vars (env : Env) : List (String × Option String) :=
  [("POSTGRES_HOST", lookupEnv env "POSTGRES_HOST"),
   ("POSTGRES_DB", lookupEnv env "POSTGRES_DB"),
   ("POSTGRES_USER", lookupEnv env "POSTGRES_USER"),
   ("POSTGRES_PASSWORD", lookupEnv env "POSTGRES_PASSWORD")]

/-- The list comprehension `[var for var, value in postgres_required_vars.items()
if not value]`. -/
def missing_vars (env : Env) : List String :=
  ((postgres_required_vars env).filter (fun p => falsy p.2)).map Prod.fst

/-- `get_config_from_env`: reads the six variables (`POSTGRES_PORT`
defaulting to `"5432"` when unset), raises `ValueError` when the storage
connection string is falsy, then raises `ValueError` listing the falsy
PostgreSQL variables, and otherwise returns the six-field dict. -/
def get_config_from_env (env : Env) : Except String Config :=
  let storage_connection_string := lookupEnv env "AZURE_STORAGE_CONNECTION_STRING"
  let postgres_host := lookupEnv env "POSTGRES_HOST"
  let postgres_port := (lookupEnv env "POSTGRES_PORT").getD "5432"
  let postgres_db := lookupEnv env "POSTGRES_DB"
  let postgres_user := lookupEnv env "POSTGRES_USER"
  let postgres_password := lookupEnv env "POSTGRES_PASSWORD"
  if falsy storage_connection_string then
    .error "缺少环境变量: AZURE_STORAGE_CONNECTION_STRING"
  else if missing_vars env ≠ [] then
    .error ("缺少PostgreSQL环境变量: " ++ joinSep (missing_vars env))
  else
    .ok { storage_connection_string := storage_connection_string.getD ""
          postgres_host := postgres_host.getD ""
          postgres_port := postgres_port
          postgres_db := postgres_db.getD ""
          postgres_user := postgres_user.getD ""
          postgres_password := postgres_password.getD "" }

/-- One `upload_blob` call that completed: container, blob name, content,
and the `overwrite=True` flag. -/
structure UploadAction where
  container : String
  blob : String
  content : String
  overwrite : Bool
deriving Repr, DecidableEq

/-- Outcomes of the external calls made by `upload_test_file_to_blob`,
plus its random/clock inputs.  `none` means the call succeeds; `some e`
means it raises an exception with message `e`. -/
structure BlobEnv where
  clientOutcome : Option String
  createContainerOutcome : Option String
  uploadOutcome : Option String
  uuid_blob : String
  uuid_file : String
  now : String
deriving Repr

/-- What a run of the object-store probe produced: the returned value or
propagated exception, the log lines, and the uploads performed. -/
structure BlobResult where
  result : Except String String
  logs : List String
  uploads : List UploadAction
deriving Repr

/-- `upload_test_file_to_blob`: build a client from the connection
string, try `create_container` on `"test-container"` with every
exception swallowed by the inner `except` (logged as the container
already existing), then upload one blob named
`test-file-<uuid>.txt` with `overwrite=True`; the outer `except` logs
and re-raises any exception from the client construction or the upload.
The blob content is the stripped f-string of the source, with the
`utcnow().isoformat()` and second `uuid4()` values spliced in. -/
def upload_test_file_to_blob (connection_string : String) (b : BlobEnv) : BlobResult :=
  match b.clientOutcome with
  | some e =>
      { result := .error e
        logs := ["ERROR: Blob Storage操作失败: " ++ e]
        uploads := [] }
  | none =>
      let container_name := "test-container"
      let blob_name := "test-file-" ++ b.uuid_blob ++ ".txt"
      let createLog :=
        match b.createContainerOutcome with
        | none => "INFO: 创建容器: " ++ container_name
        | some _ => "INFO: 容器已存在: " ++ container_name
      let test_content :=
        "测试文件内容\n上传时间: " ++ b.now ++ "\n文件ID: " ++ b.uuid_file ++
          "\n这是一个用于测试Azure Blob Storage上传功能的文件。"
      match b.uploadOutcome with
      | some e =>
          { result := .error e
            logs := [createLog, "ERROR: Blob Storage操作失败: " ++ e]
            uploads := [] }
      | none =>
          { result := .ok ("文件上传成功: " ++ blob_name)
            logs := [createLog]
            uploads := [{ container := container_name, blob := blob_name,
                          content := test_content, overwrite := true }] }

/-- The JSONB payload inserted by `test_postgres_connection`:
`{'file_upload': 'success', 'test_id': test_id, 'timestamp': ...}`.
The timestamp is the abstract clock tick read by the second
`datetime.utcnow()` call. -/
structure Payload where
  file_upload : String
  test_id : String
  timestamp : Nat
deriving Repr, DecidableEq

/-- Connection/cursor operations of `test_postgres_connection` that
completed, in order.  `executeInsert` records the clock tick rendered
into the `test_name` label and the JSONB payload. -/
inductive DbAction where
  | connect
  | executeCreate
  | executeInsert (label_time : Nat) (data : Payload)
  | commit
  | rollback
  | close
deriving Repr, DecidableEq

/-- Outcomes of the fallible database calls, the generated `uuid4()`
value, the id returned by `RETURNING id`, and the two successive
`datetime.utcnow()` reads (`now_label` for the label, `now_payload` for
the payload; a real clock may advance between them). -/
structure DbEnv where
  connectOutcome : Option String
  createTableOutcome : Option String
  insertOutcome : Option String
  commitOutcome : Option String
  fetchId : Nat
  test_uuid : String
  now_label : Nat
  now_payload : Nat
deriving Repr

/-- What a run of the database probe produced. -/
structure DbResult where
  result : Except String String
  actions : List DbAction
  logs : List String
deriving Repr

/-- `test_postgres_connection`: `connection = None`; connect; create the
test table; insert one row whose label renders the first clock read and
whose payload carries the generated id and the second clock read; fetch
the returned id; commit.  The `except` block rolls back when
`connection` is non-`None` and re-raises after logging; the `finally`
block closes the connection when it is non-`None`. -/
def test_postgres_connection (config : Config) (d : DbEnv) : DbResult :=
  match d.connectOutcome with
  | some e =>
      { result := .error e
        actions := []
        logs := ["ERROR: PostgreSQL操作失败: " ++ e] }
  | none =>
      match d.createTableOutcome with
      | some e =>
          { result := .error e
            actions := [.connect, .rollback, .close]
            logs := ["ERROR: PostgreSQL操作失败: " ++ e] }
      | none =>
          let test_id := d.test_uuid
          let payload : Payload :=
            { file_upload := "success", test_id := test_id, timestamp := d.now_payload }
          match d.insertOutcome with
          | some e =>
              { result := .error e
                actions := [.connect, .executeCreate, .rollback, .close]
                logs := ["ERROR: PostgreSQL操作失败: " ++ e] }
          | none =>
              let inserted_id := d.fetchId
              match d.commitOutcome with
              | some e =>
                  { result := .error e
                    actions := [.connect, .executeCreate,
                                .executeInsert d.now_label payload, .rollback, .close]
                    logs := ["ERROR: PostgreSQL操作失败: " ++ e] }
              | none =>
                  { result := .ok ("表创建成功，插入记录ID: " ++ toString inserted_id)
                    actions := [.connect, .executeCreate,
                                .executeInsert d.now_label payload, .commit, .close]
                    logs := [] }

/-- The three stages of `main`, in their source order. -/
inductive Stage where
  | config
  | storage
  | database
deriving Repr, DecidableEq

/-- What a run of `main` produced: the return value or the propagated
exception, the stages that were started, and the log lines. -/
structure MainResult where
  result : Except String String
  stages : List Stage
  logs : List String
deriving Repr

/-- `main`: load the config, run the blob probe on the configured
connection string, run the database probe on the config, logging each
stage's success; the surrounding `try` logs any exception and re-raises
it unchanged; `"Success"` is returned only after all three stages. -/
def main (env : Env) (benv : BlobEnv) (denv : DbEnv) : MainResult :=
  match get_config_from_env env with
  | .error e =>
      { result := .error e
        stages := [.config]
        logs := ["ERROR: 操作失败: " ++ e] }
  | .ok config =>
      let br := upload_test_file_to_blob config.storage_connection_string benv
      match br.result with
      | .error e =>
          { result := .error e
            stages := [.config, .storage]
            logs := "INFO: 成功读取环境变量配置" :: br.logs ++ ["ERROR: 操作失败: " ++ e] }
      | .ok bmsg =>
          let dr := test_postgres_connection config denv
          match dr.result with
          | .error e =>
              { result := .error e
                stages := [.config, .storage, .database]
                logs := "INFO: 成功读取环境变量配置" :: br.logs ++
                  ("INFO: Blob Storage操作成功: " ++ bmsg) :: dr.logs ++
                  ["ERROR: 操作失败: " ++ e] }
          | .ok dmsg =>
              { result := .ok "Success"
                stages := [.config, .storage, .database]
                logs := "INFO: 成功读取环境变量配置" :: br.logs ++
                  ("INFO: Blob Storage操作成功: " ++ bmsg) :: dr.logs ++
                  ["INFO: PostgreSQL操作成功: " ++ dmsg] }

/-- `headMatches pat s`: `pat` is an initial run of `s` (character lists). -/
def headMatches : List Char → List Char → Bool
  | [], _ => true
  | _ :: _, [] => false
  | p :: ps, c :: cs => p == c && headMatches ps cs

/-- `occursIn pat s`: `pat` occurs contiguously somewhere in `s`. -/
def occursIn (pat : List Char) : List Char → Bool
  | [] => headMatches pat []
  | c :: t => headMatches pat (c :: t) || occursIn pat t

/-- `mentions msg v`: the string `v` occurs inside the string `msg`
(used to state that an error message names a variable). -/
def mentions (msg v : String) : Bool := occursIn v.data msg.data

/-- Removing every binding of `v` from an environment (so that `v` is
absent, for comparing "set to the empty string" with "unset"). -/
def unsetVar (env : Env) (v : String) : Env :=
  List.filter (fun p => p.1 != v) env

/-- The five required environment variables, in the order the source
checks them. -/
def requiredVarNames : List String :=
  ["AZURE_STORAGE_CONNECTION_STRING", "POSTGRES_HOST", "POSTGRES_DB",
   "POSTGRES_USER", "POSTGRES_PASSWORD"]

/-! ### Helper lemmas -/

theorem headMatches_append (p s : List Char) : headMatches p (p ++ s) = true := by
  induction p with
  | nil => rfl
  | cons c cs ih => simp [headMatches, ih]

theorem occursIn_append_of_occursIn (pat pre s : List Char)
    (h : occursIn pat s = true) : occursIn pat (pre ++ s) = true := by
  induction pre with
  | nil => simpa using h
  | cons c cs ih => simp [occursIn, ih]

theorem occursIn_append_self (pat suf : List Char) :
    occursIn pat (pat ++ suf) = true := by
  cases pat with
  | nil => cases suf <;> simp [occursIn, headMatches]
  | cons c cs =>
      simp only [List.cons_append, occursIn, Bool.or_eq_true]
      left
      exact headMatches_append (c :: cs) suf

theorem occursIn_joinSep (v : String) (l : List String) (hv : v ∈ l) :
    occursIn v.data (joinSep l).data = true := by
  induction l with
  | nil => cases hv
  | cons x xs ih =>
      cases hv with
      | head =>
          cases xs with
          | nil =>
              have : (joinSep [v]).data = v.data ++ [] := by simp [joinSep]
              rw [this]
              exact occursIn_append_self v.data []
          | cons y ys =>
              have : (joinSep (v :: y :: ys)).data =
                  v.data ++ (", " ++ joinSep (y :: ys)).data := by
                simp [joinSep, String.data_append]
              rw [this]
              exact occursIn_append_self v.data _
      | tail _ hmem =>
          cases xs with
          | nil => cases hmem
          | cons y ys =>
              have : (joinSep (x :: y :: ys)).data =
                  (x ++ ", ").data ++ (joinSep (y :: ys)).data := by
                simp [joinSep, String.data_append]
              rw [this]
              exact occursIn_append_of_occursIn _ _ _ (ih hmem)

theorem mentions_append_joinSep (p v : String) (l : List String) (hv : v ∈ l) :
    mentions (p ++ joinSep l) v = true := by
  unfold mentions
  rw [String.data_append]
  exact occursIn_append_of_occursIn _ _ _ (occursIn_joinSep v l hv)

/-! ### Claims -/

/-- **C3** (confirmed, functional_correctness).  For every environment in
which the five required variables are set to non-empty values, config
loading succeeds and returns a record containing exactly those values,
with the port taken from `POSTGRES_PORT` or defaulting to `"5432"`; in
particular when `POSTGRES_PORT` is unset the returned port field is the
string `"5432"`. -/
theorem config_success_exact (env : Env) (scs h db u p : String)
    (hs : lookupEnv env "AZURE_STORAGE_CONNECTION_STRING" = some scs) (hs' : scs ≠ "")
    (hh : lookupEnv env "POSTGRES_HOST" = some h) (hh' : h ≠ "")
    (hd : lookupEnv env "POSTGRES_DB" = some db) (hd' : db ≠ "")
    (hu : lookupEnv env "POSTGRES_USER" = some u) (hu' : u ≠ "")
    (hp : lookupEnv env "POSTGRES_PASSWORD" = some p) (hp' : p ≠ "") :
    get_config_from_env env = .ok
      { storage_connection_string := scs, postgres_host := h,
        postgres_port := (lookupEnv env "POSTGRES_PORT").getD "5432",
        postgres_db := db, postgres_user := u, postgres_password := p } ∧
    (lookupEnv env "POSTGRES_PORT" = none →
      get_config_from_env env = .ok
        { storage_connection_string := scs, postgres_host := h,
          postgres_port := "5432",
          postgres_db := db, postgres_user := u, postgres_password := p }) := by
  have hs2 : (scs == "") = false := by simp [hs']
  have hh2 : (h == "") = false := by simp [hh']
  have hd2 : (db == "") = false := by simp [hd']
  have hu2 : (u == "") = false := by simp [hu']
  have hp2 : (p == "") = false := by simp [hp']
  constructor
  · simp [get_config_from_env, missing_vars, postgres_required_vars, falsy,
      hs, hh, hd, hu, hp, hs2, hh2, hd2, hu2, hp2]
  · intro hport
    simp [get_config_from_env, missing_vars, postgres_required_vars, falsy,
      hs, hh, hd, hu, hp, hs2, hh2, hd2, hu2, hp2, hport]

/-- Witness for `config_success_exact` at a concrete environment with the
five required variables set and `POSTGRES_PORT` unset. -/
theorem config_success_exact_witness :
    get_config_from_env
      [("AZURE_STORAGE_CONNECTION_STRING", "cs"), ("POSTGRES_HOST", "h1"),
       ("POSTGRES_DB", "d1"), ("POSTGRES_USER", "u1"), ("POSTGRES_PASSWORD", "p1")] =
      .ok { storage_connection_string := "cs", postgres_host := "h1",
            postgres_port := "5432", postgres_db := "d1",
            postgres_user := "u1", postgres_password := "p1" } :=
  (config_success_exact
      [("AZURE_STORAGE_CONNECTION_STRING", "cs"), ("POSTGRES_HOST", "h1"),
       ("POSTGRES_DB", "d1"), ("POSTGRES_USER", "u1"), ("POSTGRES_PASSWORD", "p1")]
      "cs" "h1" "d1" "u1" "p1" rfl (by decide) rfl (by decide) rfl (by decide)
      rfl (by decide) rfl (by decide)).2 rfl

/-- **C1** (counterexample).  The claim says the failure message names
every missing required variable at once.  In the empty environment both
`AZURE_STORAGE_CONNECTION_STRING` and `POSTGRES_HOST` (among others) are
absent, yet config loading raises on the storage connection string alone
and the message does not name `POSTGRES_HOST`. -/
theorem config_missing_vars_counterexample :
    lookupEnv ([] : Env) "AZURE_STORAGE_CONNECTION_STRING" = none ∧
    lookupEnv ([] : Env) "POSTGRES_HOST" = none ∧
    get_config_from_env [] = .error "缺少环境变量: AZURE_STORAGE_CONNECTION_STRING" ∧
    mentions "缺少环境变量: AZURE_STORAGE_CONNECTION_STRING" "POSTGRES_HOST" = false := by
  refine ⟨rfl, rfl, rfl, ?_⟩
  decide

/-- **C1** (corrected).  What the code actually does: when the storage
connection string is absent or empty, config loading fails naming only
`AZURE_STORAGE_CONNECTION_STRING`, regardless of which database
variables are also missing; otherwise, when one or more of the four
required database variables are absent or empty, it fails with one
message listing all (and only) the missing database variables at once,
each of which is named in the message. -/
theorem config_missing_vars_message (env : Env) :
    (falsy (lookupEnv env "AZURE_STORAGE_CONNECTION_STRING") = true →
      get_config_from_env env = .error "缺少环境变量: AZURE_STORAGE_CONNECTION_STRING") ∧
    (falsy (lookupEnv env "AZURE_STORAGE_CONNECTION_STRING") = false →
      missing_vars env ≠ [] →
      get_config_from_env env =
        .error ("缺少PostgreSQL环境变量: " ++ joinSep (missing_vars env)) ∧
      (∀ v, v ∈ missing_vars env →
        mentions ("缺少PostgreSQL环境变量: " ++ joinSep (missing_vars env)) v = true) ∧
      (∀ v val, (v, val) ∈ postgres_required_vars env →
        (v ∈ missing_vars env ↔ falsy val = true))) := by
  constructor
  · intro hfal
    simp [get_config_from_env, hfal]
  · intro hfal hmiss
    refine ⟨by simp [get_config_from_env, hfal, hmiss], ?_, ?_⟩
    · intro v hv
      exact mentions_append_joinSep _ v _ hv
    · intro v val hmem
      constructor
      · intro hin
        simp only [missing_vars, List.mem_map, List.mem_filter] at hin
        obtain ⟨⟨v2, val2⟩, ⟨hmem2, hfal2⟩, hfst⟩ := hin
        simp only at hfst
        subst hfst
        simp only [postgres_required_vars, List.mem_cons, List.mem_singleton] at hmem hmem2
        rcases hmem with h1 | h1 | h1 | h1 <;> rcases hmem2 with h2 | h2 | h2 | h2 <;>
          simp_all
      · intro hfalval
        simp only [missing_vars, List.mem_map, List.mem_filter]
        exact ⟨(v, val), ⟨hmem, hfalval⟩, rfl⟩

/-- Witness for `config_missing_vars_message`: with the storage string
present and `POSTGRES_DB`, `POSTGRES_PASSWORD` absent, loading fails
with the message listing exactly those two, and both are named in it. -/
theorem config_missing_vars_message_witness :
    get_config_from_env
        [("AZURE_STORAGE_CONNECTION_STRING", "cs"), ("POSTGRES_HOST", "h1"),
         ("POSTGRES_USER", "u1")] =
      .error "缺少PostgreSQL环境变量: POSTGRES_DB, POSTGRES_PASSWORD" ∧
    mentions "缺少PostgreSQL环境变量: POSTGRES_DB, POSTGRES_PASSWORD" "POSTGRES_DB" = true ∧
    mentions "缺少PostgreSQL环境变量: POSTGRES_DB, POSTGRES_PASSWORD" "POSTGRES_PASSWORD" = true := by
  have h := (config_missing_vars_message
      [("AZURE_STORAGE_CONNECTION_STRING", "cs"), ("POSTGRES_HOST", "h1"),
       ("POSTGRES_USER", "u1")]).2 rfl (by decide)
  refine ⟨h.1, ?_, ?_⟩
  · exact h.2.1 "POSTGRES_DB" (by decide)
  · exact h.2.1 "POSTGRES_PASSWORD" (by decide)

theorem lookupEnv_cons (a b : String) (env : Env) (k : String) :
    lookupEnv ((a, b) :: env) k = if a == k then some b else lookupEnv env k := by
  unfold lookupEnv
  cases h : a == k with
  | true =>
      rw [List.find?_cons_of_pos]
      · simp
      · simpa using h
  | false =>
      rw [List.find?_cons_of_neg]
      · simp [h]
      · simp [h]

theorem lookupEnv_unsetVar_self (env : Env) (v : String) :
    lookupEnv (unsetVar env v) v = none := by
  induction env with
  | nil => rfl
  | cons p t ih =>
      obtain ⟨a, b⟩ := p
      by_cases h : a = v
      · subst h
        simpa [unsetVar, List.filter_cons] using ih
      · have hb : (a != v) = true := bne_iff_ne.mpr h
        have ha : (a == v) = false := beq_eq_false_iff_ne.mpr h
        have hstep : unsetVar ((a, b) :: t) v = (a, b) :: unsetVar t v := by
          simp [unsetVar, List.filter_cons, hb]
        rw [hstep, lookupEnv_cons, ha]
        simpa using ih

theorem lookupEnv_unsetVar_ne (env : Env) (v k : String) (hk : k ≠ v) :
    lookupEnv (unsetVar env v) k = lookupEnv env k := by
  induction env with
  | nil => rfl
  | cons p t ih =>
      obtain ⟨a, b⟩ := p
      by_cases h : a = v
      · subst h
        have ha : (a == k) = false := beq_eq_false_iff_ne.mpr fun hx => hk hx.symm
        have hstep : unsetVar ((a, b) :: t) a = unsetVar t a := by
          simp [unsetVar, List.filter_cons]
        rw [hstep, ih, lookupEnv_cons, ha]
        simp
      · have hb : (a != v) = true := bne_iff_ne.mpr h
        have hstep : unsetVar ((a, b) :: t) v = (a, b) :: unsetVar t v := by
          simp [unsetVar, List.filter_cons, hb]
        rw [hstep, lookupEnv_cons, lookupEnv_cons, ih]

theorem mem_missing_vars (env : Env) (v : String) (val : Option String)
    (hmem : (v, val) ∈ postgres_required_vars env) (hfal : falsy val = true) :
    v ∈ missing_vars env := by
  simp only [missing_vars, List.mem_map, List.mem_filter]
  exact ⟨(v, val), ⟨hmem, hfal⟩, rfl⟩

theorem filter_map_fst_congr (l1 l2 : List (String × Option String))
    (h : List.Forall₂ (fun a b => a.1 = b.1 ∧ falsy a.2 = falsy b.2) l1 l2) :
    (l1.filter (fun p => falsy p.2)).map Prod.fst =
      (l2.filter (fun p => falsy p.2)).map Prod.fst := by
  induction h with
  | nil => rfl
  | @cons a b t1 t2 hab htail ih =>
      obtain ⟨hfst, hfal⟩ := hab
      cases hb : falsy b.2 with
      | true => simp [List.filter_cons, hfal, hb, hfst, ih]
      | false => simp [List.filter_cons, hfal, hb, ih]

theorem missing_vars_congr (e1 e2 : Env)
    (hHf : falsy (lookupEnv e1 "POSTGRES_HOST") = falsy (lookupEnv e2 "POSTGRES_HOST"))
    (hDf : falsy (lookupEnv e1 "POSTGRES_DB") = falsy (lookupEnv e2 "POSTGRES_DB"))
    (hUf : falsy (lookupEnv e1 "POSTGRES_USER") = falsy (lookupEnv e2 "POSTGRES_USER"))
    (hPf : falsy (lookupEnv e1 "POSTGRES_PASSWORD") =
        falsy (lookupEnv e2 "POSTGRES_PASSWORD")) :
    missing_vars e1 = missing_vars e2 := by
  unfold missing_vars postgres_required_vars
  exact filter_map_fst_congr _ _
    (List.Forall₂.cons ⟨rfl, hHf⟩ (List.Forall₂.cons ⟨rfl, hDf⟩
      (List.Forall₂.cons ⟨rfl, hUf⟩
        (List.Forall₂.cons ⟨rfl, hPf⟩ List.Forall₂.nil))))

theorem get_config_congr (e1 e2 : Env)
    (hAf : falsy (lookupEnv e1 "AZURE_STORAGE_CONNECTION_STRING") =
        falsy (lookupEnv e2 "AZURE_STORAGE_CONNECTION_STRING"))
    (hAg : (lookupEnv e1 "AZURE_STORAGE_CONNECTION_STRING").getD "" =
        (lookupEnv e2 "AZURE_STORAGE_CONNECTION_STRING").getD "")
    (hHf : falsy (lookupEnv e1 "POSTGRES_HOST") = falsy (lookupEnv e2 "POSTGRES_HOST"))
    (hHg : (lookupEnv e1 "POSTGRES_HOST").getD "" = (lookupEnv e2 "POSTGRES_HOST").getD "")
    (hDf : falsy (lookupEnv e1 "POSTGRES_DB") = falsy (lookupEnv e2 "POSTGRES_DB"))
    (hDg : (lookupEnv e1 "POSTGRES_DB").getD "" = (lookupEnv e2 "POSTGRES_DB").getD "")
    (hUf : falsy (lookupEnv e1 "POSTGRES_USER") = falsy (lookupEnv e2 "POSTGRES_USER"))
    (hUg : (lookupEnv e1 "POSTGRES_USER").getD "" = (lookupEnv e2 "POSTGRES_USER").getD "")
    (hPf : falsy (lookupEnv e1 "POSTGRES_PASSWORD") =
        falsy (lookupEnv e2 "POSTGRES_PASSWORD"))
    (hPg : (lookupEnv e1 "POSTGRES_PASSWORD").getD "" =
        (lookupEnv e2 "POSTGRES_PASSWORD").getD "")
    (hport : (lookupEnv e1 "POSTGRES_PORT").getD "5432" =
        (lookupEnv e2 "POSTGRES_PORT").getD "5432") :
    get_config_from_env e1 = get_config_from_env e2 := by
  have hmv : missing_vars e1 = missing_vars e2 := missing_vars_congr e1 e2 hHf hDf hUf hPf
  simp only [get_config_from_env]
  rw [hmv, hAf, hAg, hHg, hDg, hUg, hPg, hport]

theorem config_empty_pg_helper (env : Env) (N : String)
    (hpg : N ∈ ["POSTGRES_HOST", "POSTGRES_DB", "POSTGRES_USER", "POSTGRES_PASSWORD"]) :
    ∃ msg, get_config_from_env ((N, "") :: env) = .error msg ∧
      (mentions msg N = true ∨
        (N ≠ "AZURE_STORAGE_CONNECTION_STRING" ∧
          falsy (lookupEnv ((N, "") :: env) "AZURE_STORAGE_CONNECTION_STRING") = true)) := by
  by_cases hst :
      falsy (lookupEnv ((N, "") :: env) "AZURE_STORAGE_CONNECTION_STRING") = true
  · have hNA : N ≠ "AZURE_STORAGE_CONNECTION_STRING" := by
      intro h
      rw [h] at hpg
      exact absurd hpg (by decide)
    exact ⟨"缺少环境变量: AZURE_STORAGE_CONNECTION_STRING",
      by simp [get_config_from_env, hst], Or.inr ⟨hNA, hst⟩⟩
  · have hstf :
        falsy (lookupEnv ((N, "") :: env) "AZURE_STORAGE_CONNECTION_STRING") = false := by
      simpa using hst
    simp only [List.mem_cons, List.not_mem_nil, or_false] at hpg
    have hmem : (N, (some "" : Option String)) ∈ postgres_required_vars ((N, "") :: env) := by
      rcases hpg with rfl | rfl | rfl | rfl <;> simp [postgres_required_vars, lookupEnv_cons]
    have hin : N ∈ missing_vars ((N, "") :: env) :=
      mem_missing_vars _ _ _ hmem (by decide)
    have hne : missing_vars ((N, "") :: env) ≠ [] := List.ne_nil_of_mem hin
    refine ⟨"缺少PostgreSQL环境变量: " ++ joinSep (missing_vars ((N, "") :: env)),
      ?_, Or.inl ?_⟩
    · simp [get_config_from_env, hstf, hne]
    · exact mentions_append_joinSep _ _ _ hin

/-- **C9** (counterexample).  The claim says the name of a required
variable set to the empty string always appears in the failure message.
In the environment binding only `POSTGRES_HOST` to `""`, the storage
connection string is absent, so loading raises the storage failure
naming only `AZURE_STORAGE_CONNECTION_STRING`; `POSTGRES_HOST` — though
set to the empty string — is not named in the message. -/
theorem config_empty_string_shadowed_counterexample :
    lookupEnv [("POSTGRES_HOST", "")] "POSTGRES_HOST" = some "" ∧
    lookupEnv [("POSTGRES_HOST", "")] "AZURE_STORAGE_CONNECTION_STRING" = none ∧
    get_config_from_env [("POSTGRES_HOST", "")] =
      .error "缺少环境变量: AZURE_STORAGE_CONNECTION_STRING" ∧
    mentions "缺少环境变量: AZURE_STORAGE_CONNECTION_STRING" "POSTGRES_HOST" = false := by
  refine ⟨rfl, rfl, rfl, ?_⟩
  decide

/-- **C9** (corrected).  A required variable set to the empty string is
treated exactly like an absent one: binding `v` to `""` yields the very
same config-loading outcome as removing `v` from the environment, and
loading fails; the failing message names `v` except when the failure is
the earlier storage-connection-string failure — which names only
`AZURE_STORAGE_CONNECTION_STRING` — exactly as for an absent `v` (the
presence check is on falsiness of the value, not on whether the
variable is set). -/
theorem config_empty_string_as_missing (env : Env) (v : String)
    (hv : v ∈ requiredVarNames) :
    get_config_from_env ((v, "") :: env) = get_config_from_env (unsetVar env v) ∧
    ∃ msg, get_config_from_env ((v, "") :: env) = .error msg ∧
      (mentions msg v = true ∨
        (v ≠ "AZURE_STORAGE_CONNECTION_STRING" ∧
          falsy (lookupEnv ((v, "") :: env) "AZURE_STORAGE_CONNECTION_STRING") = true)) := by
  simp only [requiredVarNames, List.mem_cons, List.not_mem_nil, or_false] at hv
  constructor
  · rcases hv with rfl | rfl | rfl | rfl | rfl <;>
    · refine get_config_congr _ _ ?_ ?_ ?_ ?_ ?_ ?_ ?_ ?_ ?_ ?_ ?_ <;>
        simp [lookupEnv_cons, lookupEnv_unsetVar_ne, lookupEnv_unsetVar_self, falsy]
  · rcases hv with rfl | rfl | rfl | rfl | rfl
    · exact ⟨"缺少环境变量: AZURE_STORAGE_CONNECTION_STRING",
        by simp [get_config_from_env, falsy, lookupEnv_cons], Or.inl (by decide)⟩
    · exact config_empty_pg_helper env _ (by decide)
    · exact config_empty_pg_helper env _ (by decide)
    · exact config_empty_pg_helper env _ (by decide)
    · exact config_empty_pg_helper env _ (by decide)

/-- Witness for `config_empty_string_as_missing`: `POSTGRES_HOST` bound
to the empty string, storage string present. -/
theorem config_empty_string_as_missing_witness :
    get_config_from_env
        (("POSTGRES_HOST", "") :: [("AZURE_STORAGE_CONNECTION_STRING", "cs")]) =
      get_config_from_env
        (unsetVar [("AZURE_STORAGE_CONNECTION_STRING", "cs")] "POSTGRES_HOST") ∧
    ∃ msg,
      get_config_from_env
          (("POSTGRES_HOST", "") :: [("AZURE_STORAGE_CONNECTION_STRING", "cs")]) =
        .error msg ∧
      (mentions msg "POSTGRES_HOST" = true ∨
        ("POSTGRES_HOST" ≠ "AZURE_STORAGE_CONNECTION_STRING" ∧
          falsy (lookupEnv
              (("POSTGRES_HOST", "") :: [("AZURE_STORAGE_CONNECTION_STRING", "cs")])
              "AZURE_STORAGE_CONNECTION_STRING") = true)) :=
  config_empty_string_as_missing [("AZURE_STORAGE_CONNECTION_STRING", "cs")]
    "POSTGRES_HOST" (by decide)

/-- **C2** (divergence witness, code probe).  The claim (and spec) says
only a "container already exists" condition from `create_container` is
tolerated; here `create_container` raises an authorization failure, yet
the run swallows it, logs the container as already existing, uploads the
blob, and returns success instead of propagating the exception. -/
theorem create_container_swallows_all_eval :
    upload_test_file_to_blob "cs"
        { clientOutcome := none, createContainerOutcome := some "AuthorizationFailure",
          uploadOutcome := none, uuid_blob := "u1", uuid_file := "u2",
          now := "2024-01-01T00:00:00" } =
      { result := .ok "文件上传成功: test-file-u1.txt",
        logs := ["INFO: 容器已存在: test-container"],
        uploads := [{ container := "test-container", blob := "test-file-u1.txt",
                      content := "测试文件内容\n上传时间: 2024-01-01T00:00:00\n文件ID: u2\n这是一个用于测试Azure Blob Storage上传功能的文件。",
                      overwrite := true }] } := rfl

/-- **C8** (confirmed, functional_correctness).  Every successful run of
the object-store probe performed exactly one upload, into the container
`"test-container"`, of a blob named `test-file-<uuid>.txt` with
`overwrite=True`, and the returned success description contains that
generated blob name. -/
theorem blob_success_upload_shape (cs : String) (b : BlobEnv) (msg : String)
    (h : (upload_test_file_to_blob cs b).result = .ok msg) :
    ∃ content,
      (upload_test_file_to_blob cs b).uploads =
        [{ container := "test-container",
           blob := "test-file-" ++ b.uuid_blob ++ ".txt",
           content := content, overwrite := true }] ∧
      msg = "文件上传成功: " ++ ("test-file-" ++ b.uuid_blob ++ ".txt") := by
  cases hc : b.clientOutcome with
  | some e => simp [upload_test_file_to_blob, hc] at h
  | none =>
      cases hu : b.uploadOutcome with
      | some e => simp [upload_test_file_to_blob, hc, hu] at h
      | none =>
          refine ⟨"测试文件内容\n上传时间: " ++ b.now ++ "\n文件ID: " ++ b.uuid_file ++
              "\n这是一个用于测试Azure Blob Storage上传功能的文件。", ?_, ?_⟩
          · simp [upload_test_file_to_blob, hc, hu]
          · simp [upload_test_file_to_blob, hc, hu] at h
            exact h.symm

/-- Witness for `blob_success_upload_shape` at a concrete run. -/
theorem blob_success_upload_shape_witness :
    ∃ content,
      (upload_test_file_to_blob "cs"
          { clientOutcome := none, createContainerOutcome := none,
            uploadOutcome := none, uuid_blob := "u1", uuid_file := "u2",
            now := "t0" }).uploads =
        [{ container := "test-container", blob := "test-file-" ++ "u1" ++ ".txt",
           content := content, overwrite := true }] ∧
      "文件上传成功: test-file-u1.txt" =
        "文件上传成功: " ++ ("test-file-" ++ "u1" ++ ".txt") :=
  blob_success_upload_shape "cs"
    { clientOutcome := none, createContainerOutcome := none,
      uploadOutcome := none, uuid_blob := "u1", uuid_file := "u2", now := "t0" }
    "文件上传成功: test-file-u1.txt" rfl

/-- **C6** (confirmed, error_handling).  Whenever the database probe got
past `connect` (the connection was opened), the connection is closed on
every exit path — `close` is a performed action and is the last one —
and on every erroring run a `rollback` is performed before the
exception propagates. -/
theorem db_resource_discipline (cfg : Config) (d : DbEnv)
    (hconn : d.connectOutcome = none) :
    DbAction.close ∈ (test_postgres_connection cfg d).actions ∧
    (test_postgres_connection cfg d).actions.getLast? = some DbAction.close ∧
    (∀ e, (test_postgres_connection cfg d).result = .error e →
      DbAction.rollback ∈ (test_postgres_connection cfg d).actions) := by
  cases hct : d.createTableOutcome with
  | some e => simp [test_postgres_connection, hconn, hct]
  | none =>
      cases hins : d.insertOutcome with
      | some e => simp [test_postgres_connection, hconn, hct, hins]
      | none =>
          cases hcom : d.commitOutcome with
          | some e => simp [test_postgres_connection, hconn, hct, hins, hcom]
          | none => simp [test_postgres_connection, hconn, hct, hins, hcom]

/-- Witness for `db_resource_discipline`: an insert failure after a
successful connect both rolls back and closes. -/
theorem db_resource_discipline_witness :
    DbAction.close ∈
      (test_postgres_connection
          { storage_connection_string := "cs", postgres_host := "h1",
            postgres_port := "5432", postgres_db := "d1", postgres_user := "u1",
            postgres_password := "p1" }
          { connectOutcome := none, createTableOutcome := none,
            insertOutcome := some "boom", commitOutcome := none, fetchId := 1,
            test_uuid := "id-1", now_label := 0, now_payload := 0 }).actions ∧
    DbAction.rollback ∈
      (test_postgres_connection
          { storage_connection_string := "cs", postgres_host := "h1",
            postgres_port := "5432", postgres_db := "d1", postgres_user := "u1",
            postgres_password := "p1" }
          { connectOutcome := none, createTableOutcome := none,
            insertOutcome := some "boom", commitOutcome := none, fetchId := 1,
            test_uuid := "id-1", now_label := 0, now_payload := 0 }).actions := by
  have h := db_resource_discipline
    { storage_connection_string := "cs", postgres_host := "h1",
      postgres_port := "5432", postgres_db := "d1", postgres_user := "u1",
      postgres_password := "p1" }
    { connectOutcome := none, createTableOutcome := none,
      insertOutcome := some "boom", commitOutcome := none, fetchId := 1,
      test_uuid := "id-1", now_label := 0, now_payload := 0 } rfl
  exact ⟨h.1, h.2.2 "boom" rfl⟩

/-- **C7** (counterexample).  A successful run in which the wall clock
advanced between the two `datetime.utcnow()` calls: the row label
renders clock tick `0` while the payload embeds tick `1`, so the payload
does not embed the same timestamp that appears in the row label. -/
theorem db_two_clock_reads_counterexample :
    (test_postgres_connection
        { storage_connection_string := "cs", postgres_host := "h1",
          postgres_port := "5432", postgres_db := "d1", postgres_user := "u1",
          postgres_password := "p1" }
        { connectOutcome := none, createTableOutcome := none, insertOutcome := none,
          commitOutcome := none, fetchId := 7, test_uuid := "id-1",
          now_label := 0, now_payload := 1 }).result = .ok "表创建成功，插入记录ID: 7" ∧
    (test_postgres_connection
        { storage_connection_string := "cs", postgres_host := "h1",
          postgres_port := "5432", postgres_db := "d1", postgres_user := "u1",
          postgres_password := "p1" }
        { connectOutcome := none, createTableOutcome := none, insertOutcome := none,
          commitOutcome := none, fetchId := 7, test_uuid := "id-1",
          now_label := 0, now_payload := 1 }).actions =
      [.connect, .executeCreate,
       .executeInsert 0 { file_upload := "success", test_id := "id-1", timestamp := 1 },
       .commit, .close] ∧
    (1 : Nat) ≠ 0 := ⟨rfl, rfl, by decide⟩

/-- **C7** (corrected).  Every successful run of the database probe
performs exactly one insert; the row's payload embeds the same freshly
generated identifier as the run's `uuid4()` value together with the
second clock reading (taken separately, just after the label's first
reading, and equal to the label's only when the clock did not advance),
and the success message contains the newly assigned row identifier. -/
theorem db_insert_row_shape (cfg : Config) (d : DbEnv) (msg : String)
    (h : (test_postgres_connection cfg d).result = .ok msg) :
    (test_postgres_connection cfg d).actions =
      [.connect, .executeCreate,
       .executeInsert d.now_label
         { file_upload := "success", test_id := d.test_uuid,
           timestamp := d.now_payload },
       .commit, .close] ∧
    msg = "表创建成功，插入记录ID: " ++ toString d.fetchId ∧
    (d.now_label = d.now_payload →
      (Payload.timestamp
        { file_upload := "success", test_id := d.test_uuid,
          timestamp := d.now_payload }) = d.now_label) := by
  cases hconn : d.connectOutcome with
  | some e => simp [test_postgres_connection, hconn] at h
  | none =>
      cases hct : d.createTableOutcome with
      | some e => simp [test_postgres_connection, hconn, hct] at h
      | none =>
          cases hins : d.insertOutcome with
          | some e => simp [test_postgres_connection, hconn, hct, hins] at h
          | none =>
              cases hcom : d.commitOutcome with
              | some e => simp [test_postgres_connection, hconn, hct, hins, hcom] at h
              | none =>
                  refine ⟨by simp [test_postgres_connection, hconn, hct, hins, hcom],
                    ?_, ?_⟩
                  · simp [test_postgres_connection, hconn, hct, hins, hcom] at h
                    exact h.symm
                  · intro hsame
                    exact hsame.symm

/-- Witness for `db_insert_row_shape` at a concrete successful run with
coinciding clock reads. -/
theorem db_insert_row_shape_witness :
    (test_postgres_connection
        { storage_connection_string := "cs", postgres_host := "h1",
          postgres_port := "5432", postgres_db := "d1", postgres_user := "u1",
          postgres_password := "p1" }
        { connectOutcome := none, createTableOutcome := none, insertOutcome := none,
          commitOutcome := none, fetchId := 7, test_uuid := "id-1",
          now_label := 5, now_payload := 5 }).actions =
      [.connect, .executeCreate,
       .executeInsert 5 { file_upload := "success", test_id := "id-1", timestamp := 5 },
       .commit, .close] ∧
    Payload.timestamp
        { file_upload := "success", test_id := "id-1", timestamp := 5 } = 5 := by
  have h := db_insert_row_shape
    { storage_connection_string := "cs", postgres_host := "h1",
      postgres_port := "5432", postgres_db := "d1", postgres_user := "u1",
      postgres_password := "p1" }
    { connectOutcome := none, createTableOutcome := none, insertOutcome := none,
      commitOutcome := none, fetchId := 7, test_uuid := "id-1",
      now_label := 5, now_payload := 5 }
    "表创建成功，插入记录ID: 7" rfl
  exact ⟨h.1, h.2.2 rfl⟩

/-- **C10** (confirmed, safety).  If opening the connection itself
raises, the probe propagates that exception and performs no connection
operation at all — in particular neither `rollback` nor `close` is ever
invoked (both guards require a non-`None` connection). -/
theorem db_connect_failure_no_cleanup (cfg : Config) (d : DbEnv) (e : String)
    (h : d.connectOutcome = some e) :
    test_postgres_connection cfg d =
      { result := .error e, actions := [],
        logs := ["ERROR: PostgreSQL操作失败: " ++ e] } ∧
    DbAction.rollback ∉ (test_postgres_connection cfg d).actions ∧
    DbAction.close ∉ (test_postgres_connection cfg d).actions := by
  have h1 : test_postgres_connection cfg d =
      { result := .error e, actions := [],
        logs := ["ERROR: PostgreSQL操作失败: " ++ e] } := by
    simp [test_postgres_connection, h]
  refine ⟨h1, ?_, ?_⟩ <;> simp [h1]

/-- Witness for `db_connect_failure_no_cleanup` at a concrete failing
connect. -/
theorem db_connect_failure_no_cleanup_witness :
    test_postgres_connection
        { storage_connection_string := "cs", postgres_host := "h1",
          postgres_port := "5432", postgres_db := "d1", postgres_user := "u1",
          postgres_password := "p1" }
        { connectOutcome := some "refused", createTableOutcome := none,
          insertOutcome := none, commitOutcome := none, fetchId := 1,
          test_uuid := "id-1", now_label := 0, now_payload := 0 } =
      { result := .error "refused", actions := [],
        logs := ["ERROR: PostgreSQL操作失败: refused"] } :=
  (db_connect_failure_no_cleanup
    { storage_connection_string := "cs", postgres_host := "h1",
      postgres_port := "5432", postgres_db := "d1", postgres_user := "u1",
      postgres_password := "p1" }
    { connectOutcome := some "refused", createTableOutcome := none,
      insertOutcome := none, commitOutcome := none, fetchId := 1,
      test_uuid := "id-1", now_label := 0, now_payload := 0 } "refused" rfl).1

/-- **C4** (confirmed, temporal).  `main` runs config loading, then the
object-store probe, then the database probe in strict sequence: the
started-stage trace is always a non-empty initial segment of
`[config, storage, database]`; on a config failure neither probe stage
starts; on a storage failure the result is that exception, it is logged,
and the database stage never starts; on a database failure the result is
that exception and it is logged. -/
theorem orchestrator_sequence (env : Env) (b : BlobEnv) (d : DbEnv) :
    ((main env b d).stages = [Stage.config] ∨
      (main env b d).stages = [Stage.config, Stage.storage] ∨
      (main env b d).stages = [Stage.config, Stage.storage, Stage.database]) ∧
    (∀ e, get_config_from_env env = .error e →
      (main env b d).result = .error e ∧ (main env b d).stages = [Stage.config] ∧
      Stage.storage ∉ (main env b d).stages ∧
      Stage.database ∉ (main env b d).stages ∧
      ("ERROR: 操作失败: " ++ e) ∈ (main env b d).logs) ∧
    (∀ cfg e, get_config_from_env env = .ok cfg →
      (upload_test_file_to_blob cfg.storage_connection_string b).result = .error e →
      (main env b d).result = .error e ∧
      (main env b d).stages = [Stage.config, Stage.storage] ∧
      Stage.database ∉ (main env b d).stages ∧
      ("ERROR: 操作失败: " ++ e) ∈ (main env b d).logs) ∧
    (∀ cfg bmsg e, get_config_from_env env = .ok cfg →
      (upload_test_file_to_blob cfg.storage_connection_string b).result = .ok bmsg →
      (test_postgres_connection cfg d).result = .error e →
      (main env b d).result = .error e ∧
      (main env b d).stages = [Stage.config, Stage.storage, Stage.database] ∧
      ("ERROR: 操作失败: " ++ e) ∈ (main env b d).logs) := by
  refine ⟨?_, ?_, ?_, ?_⟩
  · cases hc : get_config_from_env env with
    | error e => simp [main, hc]
    | ok cfg =>
        cases hb : (upload_test_file_to_blob cfg.storage_connection_string b).result with
        | error e => simp [main, hc, hb]
        | ok bm =>
            cases hd : (test_postgres_connection cfg d).result with
            | error e => simp [main, hc, hb, hd]
            | ok dm => simp [main, hc, hb, hd]
  · intro e hc
    simp [main, hc]
  · intro cfg e hc hb
    simp [main, hc, hb]
  · intro cfg bm e hc hb hd
    simp [main, hc, hb, hd]

/-- Witness for `orchestrator_sequence`: a run whose storage stage fails
with `"boom"` propagates it and never starts the database stage. -/
theorem orchestrator_sequence_witness :
    (main [("AZURE_STORAGE_CONNECTION_STRING", "cs"), ("POSTGRES_HOST", "h1"),
        ("POSTGRES_DB", "d1"), ("POSTGRES_USER", "u1"), ("POSTGRES_PASSWORD", "p1")]
      { clientOutcome := none, createContainerOutcome := none,
        uploadOutcome := some "boom", uuid_blob := "u1", uuid_file := "u2",
        now := "t0" }
      { connectOutcome := none, createTableOutcome := none, insertOutcome := none,
        commitOutcome := none, fetchId := 1, test_uuid := "id-1",
        now_label := 0, now_payload := 0 }).result = .error "boom" ∧
    (main [("AZURE_STORAGE_CONNECTION_STRING", "cs"), ("POSTGRES_HOST", "h1"),
        ("POSTGRES_DB", "d1"), ("POSTGRES_USER", "u1"), ("POSTGRES_PASSWORD", "p1")]
      { clientOutcome := none, createContainerOutcome := none,
        uploadOutcome := some "boom", uuid_blob := "u1", uuid_file := "u2",
        now := "t0" }
      { connectOutcome := none, createTableOutcome := none, insertOutcome := none,
        commitOutcome := none, fetchId := 1, test_uuid := "id-1",
        now_label := 0, now_payload := 0 }).stages = [Stage.config, Stage.storage] ∧
    Stage.database ∉
      (main [("AZURE_STORAGE_CONNECTION_STRING", "cs"), ("POSTGRES_HOST", "h1"),
          ("POSTGRES_DB", "d1"), ("POSTGRES_USER", "u1"), ("POSTGRES_PASSWORD", "p1")]
        { clientOutcome := none, createContainerOutcome := none,
          uploadOutcome := some "boom", uuid_blob := "u1", uuid_file := "u2",
          now := "t0" }
        { connectOutcome := none, createTableOutcome := none, insertOutcome := none,
          commitOutcome := none, fetchId := 1, test_uuid := "id-1",
          now_label := 0, now_payload := 0 }).stages := by
  have h := (orchestrator_sequence
      [("AZURE_STORAGE_CONNECTION_STRING", "cs"), ("POSTGRES_HOST", "h1"),
       ("POSTGRES_DB", "d1"), ("POSTGRES_USER", "u1"), ("POSTGRES_PASSWORD", "p1")]
      { clientOutcome := none, createContainerOutcome := none,
        uploadOutcome := some "boom", uuid_blob := "u1", uuid_file := "u2",
        now := "t0" }
      { connectOutcome := none, createTableOutcome := none, insertOutcome := none,
        commitOutcome := none, fetchId := 1, test_uuid := "id-1",
        now_label := 0, now_payload := 0 }).2.2.1
    { storage_connection_string := "cs", postgres_host := "h1",
      postgres_port := "5432", postgres_db := "d1", postgres_user := "u1",
      postgres_password := "p1" }
    "boom" rfl rfl
  exact ⟨h.1, h.2.1, h.2.2.1⟩

/-- **C5** (confirmed, error_handling).  `main` returns the literal
string `"Success"` exactly when all three stages complete without
exception; any returned value is `"Success"`; and on failure the
propagated error is, verbatim, the error of the first failing stage
(config loading, the object-store probe, or the database probe). -/
theorem main_success_iff (env : Env) (b : BlobEnv) (d : DbEnv) :
    ((main env b d).result = .ok "Success" ↔
      ∃ cfg bmsg dmsg, get_config_from_env env = .ok cfg ∧
        (upload_test_file_to_blob cfg.storage_connection_string b).result = .ok bmsg ∧
        (test_postgres_connection cfg d).result = .ok dmsg) ∧
    (∀ s, (main env b d).result = .ok s → s = "Success") ∧
    (∀ e, (main env b d).result = .error e →
      get_config_from_env env = .error e ∨
      ∃ cfg, get_config_from_env env = .ok cfg ∧
        ((upload_test_file_to_blob cfg.storage_connection_string b).result = .error e ∨
          ∃ bmsg,
            (upload_test_file_to_blob cfg.storage_connection_string b).result = .ok bmsg ∧
            (test_postgres_connection cfg d).result = .error e)) := by
  cases hc : get_config_from_env env with
  | error e0 =>
      refine ⟨by simp [main, hc], ?_, ?_⟩
      · intro s hs
        simp [main, hc] at hs
      · intro e he
        simp only [main, hc] at he
        left
        have h2 : e0 = e := by simpa using he
        rw [h2]
  | ok cfg =>
      cases hb : (upload_test_file_to_blob cfg.storage_connection_string b).result with
      | error e1 =>
          refine ⟨by simp [main, hc, hb], ?_, ?_⟩
          · intro s hs
            simp [main, hc, hb] at hs
          · intro e he
            simp only [main, hc, hb] at he
            right
            exact ⟨cfg, rfl, Or.inl (hb.trans he)⟩
      | ok bm =>
          cases hd : (test_postgres_connection cfg d).result with
          | error e2 =>
              refine ⟨by simp [main, hc, hb, hd], ?_, ?_⟩
              · intro s hs
                simp [main, hc, hb, hd] at hs
              · intro e he
                simp only [main, hc, hb, hd] at he
                right
                exact ⟨cfg, rfl, Or.inr ⟨bm, hb, hd.trans he⟩⟩
          | ok dm =>
              refine ⟨?_, ?_, ?_⟩
              · constructor
                · intro _
                  exact ⟨cfg, bm, dm, rfl, hb, hd⟩
                · intro _
                  simp [main, hc, hb, hd]
              · intro s hs
                simp [main, hc, hb, hd] at hs
                exact hs.symm
              · intro e he
                simp [main, hc, hb, hd] at he

/-- Witness for `main_success_iff`: a fully successful run returns
`"Success"`. -/
theorem main_success_iff_witness :
    (main [("AZURE_STORAGE_CONNECTION_STRING", "cs"), ("POSTGRES_HOST", "h1"),
        ("POSTGRES_DB", "d1"), ("POSTGRES_USER", "u1"), ("POSTGRES_PASSWORD", "p1")]
      { clientOutcome := none, createContainerOutcome := none,
        uploadOutcome := none, uuid_blob := "u1", uuid_file := "u2", now := "t0" }
      { connectOutcome := none, createTableOutcome := none, insertOutcome := none,
        commitOutcome := none, fetchId := 7, test_uuid := "id-1",
        now_label := 0, now_payload := 0 }).result = .ok "Success" :=
  (main_success_iff
      [("AZURE_STORAGE_CONNECTION_STRING", "cs"), ("POSTGRES_HOST", "h1"),
       ("POSTGRES_DB", "d1"), ("POSTGRES_USER", "u1"), ("POSTGRES_PASSWORD", "p1")]
      { clientOutcome := none, createContainerOutcome := none,
        uploadOutcome := none, uuid_blob := "u1", uuid_file := "u2", now := "t0" }
      { connectOutcome := none, createTableOutcome := none, insertOutcome := none,
        commitOutcome := none, fetchId := 7, test_uuid := "id-1",
        now_label := 0, now_payload := 0 }).1.mpr
    ⟨{ storage_connection_string := "cs", postgres_host := "h1",
       postgres_port := "5432", postgres_db := "d1", postgres_user := "u1",
       postgres_password := "p1" },
     "文件上传成功: test-file-u1.txt", "表创建成功，插入记录ID: 7", rfl, rfl, rfl⟩

end DataExtractor
